import Mathlib

/-!
Verification development for the MQTT credential-management test client
(`mqtt_credential_test.py` and `mqtt_issue_cert.py`).

The Python sources are shallowly embedded: pure functions become Lean
functions, the control flow of `run_scenario` / `main` becomes explicit
dispatch functions over event/argument types, and library calls
(`str.split`, `base64.b64decode`, `base64.b64encode`, `hmac` with
`hashlib.sha256`, `urllib.parse.quote_plus`) are modelled by executable
Lean definitions following the reference algorithms (CPython's lenient
`a2b_base64`, FIPS 180-4 SHA-256, RFC 2104 HMAC, percent-encoding with
the `quote_plus` space rule).
-/

namespace MqttCredTest

/-- Model of Python `str.split(sep)` for a single-character separator:
every occurrence of the separator delimits a field, empty fields are kept,
and the empty string yields one empty field. -/
def pySplit (sep : Char) : List Char → List (List Char)
  | [] => [[]]
  | c :: cs =>
    let rest := pySplit sep cs
    if c = sep then [] :: rest
    else
      match rest with
      | [] => [[c]]
      | r :: rs => (c :: r) :: rs

/-- The slash-delimited segments of a topic, as in `topic.split('/')`. -/
def topic_parts (topic : String) : List String :=
  (pySplit (Char.ofNat 47) topic.data).map String.mk

/-- Model of `HappyPathScenario.validate_response` (mqtt_credential_test.py,
lines 96-107): split the topic on the slash delimiter; with at least four
segments, segment index 3 must equal the literal string 202. -/
def HappyPathScenario.validate_response (topic payload : String) : Bool × String :=
  let parts := topic_parts topic
  if parts.length ≥ 4 then
    let status_code := parts.getD 3 ""
    if status_code = "202" then
      (true, "✓ SUCCESS: Received expected status code 202")
    else
      (false, "✗ FAILURE: Expected status code 202, got " ++ status_code)
  else
    (false, "✗ FAILURE: Could not parse status code from topic")

/-- Model of `DisconnectReconnectScenario.validate_response`
(mqtt_credential_test.py, lines 125-134): same split and comparison, a
different success message. -/
def DisconnectReconnectScenario.validate_response (topic payload : String) : Bool × String :=
  let parts := topic_parts topic
  if parts.length ≥ 4 then
    let status_code := parts.getD 3 ""
    if status_code = "202" then
      (true, "✓ SUCCESS: Received response after reconnection (status code 202)")
    else
      (false, "✗ FAILURE: Expected status code 202, got " ++ status_code)
  else
    (false, "✗ FAILURE: Could not parse status code from topic")

/-- Claim C1: for every response topic with at least four slash-delimited
segments, `HappyPathScenario.validate_response` succeeds iff segment index 3
equals 202, and on any other segment value it fails with a message containing
that actual value. -/
theorem C1_happy_path_validate_response (topic payload : String)
    (h : (topic_parts topic).length ≥ 4) :
    ((HappyPathScenario.validate_response topic payload).1 = true ↔
      (topic_parts topic).getD 3 "" = "202") ∧
    ((topic_parts topic).getD 3 "" ≠ "202" →
      (HappyPathScenario.validate_response topic payload).1 = false ∧
      ∃ pre post, (HappyPathScenario.validate_response topic payload).2 =
        pre ++ (topic_parts topic).getD 3 "" ++ post) := by
  unfold HappyPathScenario.validate_response
  by_cases hc : (topic_parts topic).getD 3 "" = "202" <;>
    simp only [List.getD_eq_getElem?_getD] at hc ⊢
  · simp [h, hc]
  · refine ⟨by simp [h, hc], fun _ => ⟨by simp [h, hc], ?_⟩⟩
    refine ⟨"✗ FAILURE: Expected status code 202, got ", "", ?_⟩
    simp [h, hc]

/-- Witness for C1 at concrete topics with status 202 and status 401. -/
theorem C1_witness :
    (("$iothub/credentials/res/202/?$rid=7&$version=1" : String) |> fun t =>
      (topic_parts t).length ≥ 4 ∧
      (HappyPathScenario.validate_response t "{}").1 = true) ∧
    (("$iothub/credentials/res/401/?$rid=7" : String) |> fun t =>
      (topic_parts t).length ≥ 4 ∧
      (HappyPathScenario.validate_response t "{}").1 = false) := by
  refine ⟨⟨by decide, ?_⟩, ⟨by decide, ?_⟩⟩
  · exact (C1_happy_path_validate_response
      "$iothub/credentials/res/202/?$rid=7&$version=1" "{}" (by decide)).1.mpr (by decide)
  · exact ((C1_happy_path_validate_response
      "$iothub/credentials/res/401/?$rid=7" "{}" (by decide)).2 (by decide)).1

/-- Claim C2: for every topic with fewer than four slash-delimited segments,
both scenario variants of `validate_response` return failure with the
parse-failure message (the embedded functions are total, so no input can
raise). -/
theorem C2_short_topic_parse_failure (topic payload : String)
    (h : (topic_parts topic).length < 4) :
    HappyPathScenario.validate_response topic payload =
      (false, "✗ FAILURE: Could not parse status code from topic") ∧
    DisconnectReconnectScenario.validate_response topic payload =
      (false, "✗ FAILURE: Could not parse status code from topic") := by
  unfold HappyPathScenario.validate_response DisconnectReconnectScenario.validate_response
  have h4 : ¬ (topic_parts topic).length ≥ 4 := by omega
  simp [h4]

/-- Witness for C2 at a concrete short topic. -/
theorem C2_witness :
    (topic_parts "$iothub/res").length < 4 ∧
    HappyPathScenario.validate_response "$iothub/res" "" =
      (false, "✗ FAILURE: Could not parse status code from topic") := by
  exact ⟨by decide, (C2_short_topic_parse_failure "$iothub/res" "" (by decide)).1⟩

/-- Claim C7: the success result of `validate_response` depends only on
segment index 3 of the split topic — two topics agreeing there (each with at
least four segments) yield the same success boolean under any payloads, so
the correlation identifier in the topic query string is never cross-checked. -/
theorem C7_depends_only_on_segment3 (t1 t2 p1 p2 : String)
    (h1 : (topic_parts t1).length ≥ 4) (h2 : (topic_parts t2).length ≥ 4)
    (hseg : (topic_parts t1).getD 3 "" = (topic_parts t2).getD 3 "") :
    (HappyPathScenario.validate_response t1 p1).1 =
      (HappyPathScenario.validate_response t2 p2).1 := by
  unfold HappyPathScenario.validate_response
  by_cases hc : (topic_parts t1).getD 3 "" = "202" <;>
    simp only [List.getD_eq_getElem?_getD] at hc hseg ⊢
  · simp [h1, h2, hc, hseg ▸ hc]
  · simp [h1, h2, hc, hseg ▸ hc]

/-- Witness for C7: two topics with different correlation identifiers and
different payloads, agreeing on the status segment. -/
theorem C7_witness :
    (topic_parts "$iothub/credentials/res/202/?$rid=111").length ≥ 4 ∧
    (topic_parts "$iothub/credentials/res/202/?$rid=999").length ≥ 4 ∧
    (topic_parts "$iothub/credentials/res/202/?$rid=111").getD 3 "" =
      (topic_parts "$iothub/credentials/res/202/?$rid=999").getD 3 "" ∧
    (HappyPathScenario.validate_response "$iothub/credentials/res/202/?$rid=111" "a").1 =
      (HappyPathScenario.validate_response "$iothub/credentials/res/202/?$rid=999" "b").1 := by
  exact ⟨by decide, by decide, by decide,
    C7_depends_only_on_segment3 "$iothub/credentials/res/202/?$rid=111"
      "$iothub/credentials/res/202/?$rid=999" "a" "b" (by decide) (by decide) (by decide)⟩

/-- Claim C8: the two scenarios apply the same success criterion — for every
topic and payload the success booleans coincide. -/
theorem C8_same_success_criterion (topic payload : String) :
    (DisconnectReconnectScenario.validate_response topic payload).1 =
      (HappyPathScenario.validate_response topic payload).1 := by
  unfold HappyPathScenario.validate_response DisconnectReconnectScenario.validate_response
  by_cases h : (topic_parts topic).length ≥ 4
  · by_cases hc : (topic_parts topic).getD 3 "" = "202" <;>
      simp only [List.getD_eq_getElem?_getD] at hc ⊢ <;> simp [h, hc]
  · simp [h]

/-! ### Byte-level models of the library calls used by `generate_sas_token`

Bytes are natural numbers below 256; 32-bit words are natural numbers below
2^32, with overflow made explicit by reduction modulo 2^32. -/

/-- 2^32, the modulus of 32-bit words. -/
def M32 : Nat := 4294967296

/-- 32-bit right rotation. -/
def rotr (n x : Nat) : Nat := ((x >>> n) ||| (x <<< (32 - n))) % M32

/-- FIPS 180-4 Ch function (bitwise choose). -/
def ch (x y z : Nat) : Nat := (x &&& y) ^^^ ((x ^^^ (M32 - 1)) &&& z)

/-- FIPS 180-4 Maj function (bitwise majority). -/
def maj (x y z : Nat) : Nat := (x &&& y) ^^^ (x &&& z) ^^^ (y &&& z)

/-- FIPS 180-4 Σ0. -/
def bigSigma0 (x : Nat) : Nat := rotr 2 x ^^^ rotr 13 x ^^^ rotr 22 x

/-- FIPS 180-4 Σ1. -/
def bigSigma1 (x : Nat) : Nat := rotr 6 x ^^^ rotr 11 x ^^^ rotr 25 x

/-- FIPS 180-4 σ0. -/
def smallSigma0 (x : Nat) : Nat := rotr 7 x ^^^ rotr 18 x ^^^ (x >>> 3)

/-- FIPS 180-4 σ1. -/
def smallSigma1 (x : Nat) : Nat := rotr 17 x ^^^ rotr 19 x ^^^ (x >>> 10)

/-- The 64 SHA-256 round constants (FIPS 180-4 §4.2.2, in decimal). -/
def sha256K : List Nat :=
  [1116352408, 1899447441, 3049323471, 3921009573, 961987163,
   1508970993, 2453635748, 2870763221, 3624381080, 310598401,
   607225278, 1426881987, 1925078388, 2162078206, 2614888103,
   3248222580, 3835390401, 4022224774, 264347078, 604807628,
   770255983, 1249150122, 1555081692, 1996064986, 2554220882,
   2821834349, 2952996808, 3210313671, 3336571891, 3584528711,
   113926993, 338241895, 666307205, 773529912, 1294757372,
   1396182291, 1695183700, 1986661051, 2177026350, 2456956037,
   2730485921, 2820302411, 3259730800, 3345764771, 3516065817,
   3600352804, 4094571909, 275423344, 430227734, 506948616,
   659060556, 883997877, 958139571, 1322822218, 1537002063,
   1747873779, 1955562222, 2024104815, 2227730452, 2361852424,
   2428436474, 2756734187, 3204031479, 3329325298]

/-- The SHA-256 initial hash value (FIPS 180-4 §5.3.3, in decimal). -/
def sha256H0 : List Nat :=
  [1779033703, 3144134277, 1013904242, 2773480762,
   1359893119, 2600822924, 528734635, 1541459225]

/-- Big-endian byte decomposition of a value into `n` bytes. -/
def beBytes : Nat → Nat → List Nat
  | 0, _ => []
  | n + 1, v => beBytes n (v / 256) ++ [v % 256]

/-- Group bytes into big-endian 32-bit words (four bytes per word). -/
def bytesToWords : List Nat → List Nat
  | a :: b :: c :: d :: rest => (a * 16777216 + b * 65536 + c * 256 + d) :: bytesToWords rest
  | _ => []

/-- Extend a 16-word block schedule by `n` further words via σ0/σ1. -/
def extendSchedule : Nat → List Nat → List Nat
  | 0, w => w
  | n + 1, w =>
    let len := w.length
    let next := (smallSigma1 (w.getD (len - 2) 0) + w.getD (len - 7) 0 +
                 smallSigma0 (w.getD (len - 15) 0) + w.getD (len - 16) 0) % M32
    extendSchedule n (w ++ [next])

/-- The eight SHA-256 working registers. -/
structure Regs where
  a : Nat
  b : Nat
  c : Nat
  d : Nat
  e : Nat
  f : Nat
  g : Nat
  h : Nat

/-- One SHA-256 compression round. -/
def sha256Round (r : Regs) (k w : Nat) : Regs :=
  let t1 := (r.h + bigSigma1 r.e + ch r.e r.f r.g + k + w) % M32
  let t2 := (bigSigma0 r.a + maj r.a r.b r.c) % M32
  ⟨(t1 + t2) % M32, r.a, r.b, r.c, (r.d + t1) % M32, r.e, r.f, r.g⟩

/-- The SHA-256 compression function on one 64-byte block. -/
def sha256Compress (hs : List Nat) (block : List Nat) : List Nat :=
  let w := extendSchedule 48 (bytesToWords block)
  let init : Regs := ⟨hs.getD 0 0, hs.getD 1 0, hs.getD 2 0, hs.getD 3 0,
                      hs.getD 4 0, hs.getD 5 0, hs.getD 6 0, hs.getD 7 0⟩
  let r := (sha256K.zip w).foldl (fun r kw => sha256Round r kw.1 kw.2) init
  [(hs.getD 0 0 + r.a) % M32, (hs.getD 1 0 + r.b) % M32, (hs.getD 2 0 + r.c) % M32,
   (hs.getD 3 0 + r.d) % M32, (hs.getD 4 0 + r.e) % M32, (hs.getD 5 0 + r.f) % M32,
   (hs.getD 6 0 + r.g) % M32, (hs.getD 7 0 + r.h) % M32]

/-- Split a byte list into 64-byte chunks; the fuel argument (at least the
number of chunks, here the list length) keeps the recursion structural. -/
def chunks64Aux : Nat → List Nat → List (List Nat)
  | 0, _ => []
  | _, [] => []
  | fuel + 1, l => l.take 64 :: chunks64Aux fuel (l.drop 64)

/-- Split a byte list into 64-byte chunks. -/
def chunks64 (l : List Nat) : List (List Nat) := chunks64Aux l.length l

/-- FIPS 180-4 message padding: a 0x80 byte, zeros to 56 mod 64, then the
bit length as an 8-byte big-endian value. -/
def sha256Padding (len : Nat) : List Nat :=
  0x80 :: List.replicate ((55 + 64 - len % 64) % 64) 0 ++ beBytes 8 (len * 8)

/-- SHA-256 of a byte list, as a 32-byte digest. -/
def sha256 (msg : List Nat) : List Nat :=
  let padded := msg ++ sha256Padding msg.length
  let finalWords := (chunks64 padded).foldl sha256Compress sha256H0
  (finalWords.map (beBytes 4)).flatten

/-- RFC 2104 HMAC instantiated with SHA-256 (block size 64). -/
def hmacSha256 (key msg : List Nat) : List Nat :=
  let k0 := if key.length > 64 then sha256 key else key
  let kpad := k0 ++ List.replicate (64 - k0.length) 0
  let ipad := kpad.map (fun b => b ^^^ 0x36)
  let opad := kpad.map (fun b => b ^^^ 0x5c)
  sha256 (opad ++ sha256 (ipad ++ msg))

/-- Value of a character in the standard base64 alphabet, `none` for
characters outside it. -/
def b64Val (c : Char) : Option Nat :=
  if 65 ≤ c.toNat ∧ c.toNat ≤ 90 then some (c.toNat - 65)
  else if 97 ≤ c.toNat ∧ c.toNat ≤ 122 then some (c.toNat - 97 + 26)
  else if 48 ≤ c.toNat ∧ c.toNat ≤ 57 then some (c.toNat - 48 + 52)
  else if c = '+' then some 62
  else if c = '/' then some 63
  else none

/-- CPython's lenient `binascii.a2b_base64` loop (strict_mode=False), the
decoder behind `base64.b64decode`: characters outside the alphabet are
skipped; a padding character closing a quad of at least two data characters
terminates decoding; leftover data characters at the end (a quad position
other than 0) are an error. -/
def a2bBase64 (pads quad_pos leftchar : Nat) (acc : List Nat) :
    List Char → Option (List Nat)
  | [] => if quad_pos = 0 then some acc else none
  | c :: cs =>
    if c = '=' then
      if quad_pos ≥ 2 then
        if quad_pos + (pads + 1) ≥ 4 then some acc
        else a2bBase64 (pads + 1) quad_pos leftchar acc cs
      else a2bBase64 pads quad_pos leftchar acc cs
    else
      match b64Val c with
      | none => a2bBase64 pads quad_pos leftchar acc cs
      | some v =>
        match quad_pos with
        | 0 => a2bBase64 0 1 v acc cs
        | 1 => a2bBase64 0 2 (v &&& 15) (acc ++ [(leftchar <<< 2) ||| (v >>> 4)]) cs
        | 2 => a2bBase64 0 3 (v &&& 3) (acc ++ [(leftchar <<< 4) ||| (v >>> 2)]) cs
        | _ => a2bBase64 0 0 0 (acc ++ [(leftchar <<< 6) ||| v]) cs

/-- Model of `base64.b64decode` on a text argument: the text must be ASCII
(otherwise the ASCII encoding step raises), then the lenient decoder runs.
`none` models the raised exception. -/
def b64decode (s : String) : Option (List Nat) :=
  if s.data.any (fun c => c.toNat ≥ 128) then none
  else a2bBase64 0 0 0 [] s.data

/-- Character `n` of the standard base64 alphabet. -/
def b64Chr (n : Nat) : Char :=
  if n < 26 then Char.ofNat (65 + n)
  else if n < 52 then Char.ofNat (97 + n - 26)
  else if n < 62 then Char.ofNat (48 + n - 52)
  else if n = 62 then '+'
  else '/'

/-- Standard base64 encoding of a byte list, with padding. -/
def b64encodeChars : List Nat → List Char
  | [] => []
  | [a] => [b64Chr (a >>> 2), b64Chr ((a &&& 3) <<< 4), '=', '=']
  | [a, b] => [b64Chr (a >>> 2), b64Chr (((a &&& 3) <<< 4) ||| (b >>> 4)),
               b64Chr ((b &&& 15) <<< 2), '=']
  | a :: b :: c :: rest =>
    b64Chr (a >>> 2) :: b64Chr (((a &&& 3) <<< 4) ||| (b >>> 4)) ::
    b64Chr (((b &&& 15) <<< 2) ||| (c >>> 6)) :: b64Chr (c &&& 63) :: b64encodeChars rest

/-- Model of `base64.b64encode(...).decode('utf-8')`. -/
def b64encode (bs : List Nat) : String := String.mk (b64encodeChars bs)

/-- UTF-8 encoding of one character. -/
def utf8EncodeChar (c : Char) : List Nat :=
  let n := c.toNat
  if n < 0x80 then [n]
  else if n < 0x800 then [0xC0 + n / 64, 0x80 + n % 64]
  else if n < 0x10000 then [0xE0 + n / 4096, 0x80 + (n / 64) % 64, 0x80 + n % 64]
  else [0xF0 + n / 262144, 0x80 + (n / 4096) % 64, 0x80 + (n / 64) % 64, 0x80 + n % 64]

/-- UTF-8 byte sequence of a string (Python `str.encode('utf-8')`). -/
def strBytes (s : String) : List Nat := (s.data.map utf8EncodeChar).flatten

/-- Upper-case hexadecimal digit. -/
def hexDigit (n : Nat) : Char :=
  if n < 10 then Char.ofNat (48 + n) else Char.ofNat (55 + n)

/-- The characters `urllib.parse.quote` never escapes (letters, digits, and
underscore, dot, hyphen, tilde). -/
def isAlwaysSafe (b : Nat) : Bool :=
  (65 ≤ b && b ≤ 90) || (97 ≤ b && b ≤ 122) || (48 ≤ b && b ≤ 57) ||
  b = 95 || b = 46 || b = 45 || b = 126

/-- Percent-encode one byte under the `quote_plus` rules (space becomes a
plus sign, safe characters pass through, everything else becomes %XX). -/
def quoteByte (b : Nat) : List Char :=
  if isAlwaysSafe b then [Char.ofNat b]
  else if b = 32 then ['+']
  else ['%', hexDigit (b / 16), hexDigit (b % 16)]

/-- Model of `urllib.parse.quote_plus` with an empty safe set. -/
def quote_plus (s : String) : String :=
  String.mk (((strBytes s).map quoteByte).flatten)

/-- Model of `generate_sas_token` (mqtt_credential_test.py, lines 142-182).
Wall-clock time is passed explicitly as `now` (seconds, the integer part of
`time.time()`); the `sys.exit(1)` taken when the key fails to base64-decode
is modelled as `Except.error`. -/
def generate_sas_token (uri key : String) (policy_name : Option String)
    (expiry : Nat) (now : Nat) : Except String String :=
  let ttl := now + expiry
  let sign_key := uri ++ "\n" ++ toString ttl
  match b64decode key with
  | none => Except.error "✗ Error decoding key"
  | some decoded_key =>
    let signature := hmacSha256 decoded_key (strBytes sign_key)
    let signature_b64 := b64encode signature
    let signature_encoded := quote_plus signature_b64
    match policy_name with
    | some p =>
      if p ≠ "" then
        Except.ok ("SharedAccessSignature sr=" ++ uri ++ "&sig=" ++ signature_encoded ++
          "&se=" ++ toString ttl ++ "&skn=" ++ p)
      else
        Except.ok ("SharedAccessSignature sr=" ++ uri ++ "&sig=" ++ signature_encoded ++
          "&se=" ++ toString ttl)
    | none =>
      Except.ok ("SharedAccessSignature sr=" ++ uri ++ "&sig=" ++ signature_encoded ++
        "&se=" ++ toString ttl)

/-! ### Control-flow models: exit codes, argument dispatch, run prelude -/

/-- The terminal event of one run attempt, covering the disjoint outcomes the
two scripts distinguish: a rejected connection acknowledgment, an arriving
response message (carrying the status segment of its topic when the topic has
at least four slash-delimited segments), the timeout of the response wait,
a KeyboardInterrupt, and any other exception escaping the try block. -/
inductive RunEvent where
  | connectFailure
  | response (status_code : Option String)
  | timeout
  | interrupted
  | exception
deriving DecidableEq

/-- Process exit status of mqtt_credential_test.py when `run_scenario`
(lines 328-415) ends with the given event: `on_connect` calls `sys.exit(1)`
on a failed connection acknowledgment (line 243) and the except-Exception arm
calls `sys.exit(1)` (line 415); every other path — response received (whether
validation succeeded or failed), timeout (lines 399-401), KeyboardInterrupt
(lines 407-410) — falls off the end of `run_scenario` and of `main`, so the
interpreter exits 0. -/
def run_scenario_exit : RunEvent → Nat
  | .connectFailure => 1
  | .exception => 1
  | .response _ => 0
  | .timeout => 0
  | .interrupted => 0

/-- Process exit status of mqtt_issue_cert.py `main` (lines 228-265):
timeout exits 1 (line 244), a response exits 0 exactly when the recorded
status code is the string 202 (lines 251-254), KeyboardInterrupt exits 1
(line 260), other exceptions exit 1 (line 265), and a failed connection
acknowledgment exits 1 from `on_connect` (line 56). -/
def issue_cert_main_exit : RunEvent → Nat
  | .connectFailure => 1
  | .exception => 1
  | .interrupted => 1
  | .timeout => 1
  | .response code => if code = some "202" then 0 else 1

/-- Parsed command-line arguments of mqtt_credential_test.py (lines 448-459). -/
structure Args where
  scenario : String
  list_scenarios : Bool
  cert : Bool
  sas : Bool

/-- The names registered in the SCENARIOS dictionary
(mqtt_credential_test.py, lines 137-140). -/
def SCENARIOS : List String := ["happy_path", "disconnect_reconnect"]

/-- The action `main` of mqtt_credential_test.py takes after argument
parsing: list scenarios and return, report a missing auth method
(`parser.error`), report an unknown scenario, or run the scenario. -/
inductive MainAction where
  | listScenariosAndReturn
  | argumentError
  | unknownScenarioError (name : String)
  | runScenario (name : String) (use_cert_auth : Bool)
deriving DecidableEq

/-- The branch structure of `main` (mqtt_credential_test.py, lines 459-478):
`--list-scenarios` short-circuits, then the auth-method check, then the
registry lookup, and only then `run_scenario`. -/
def main_dispatch (a : Args) : MainAction :=
  if a.list_scenarios then .listScenariosAndReturn
  else if !a.cert && !a.sas then .argumentError
  else if !(SCENARIOS.contains a.scenario) then .unknownScenarioError a.scenario
  else .runScenario a.scenario a.cert

/-- Whether the chosen action ever reaches `client.connect`: only
`run_scenario` contains a connect call (mqtt_credential_test.py, line 365). -/
def action_connects : MainAction → Bool
  | .runScenario _ _ => true
  | _ => false

/-- The exit code already determined by the action before any network
activity: listing returns normally (exit 0), `parser.error` exits 2, the
unknown-scenario branch prints the error and exits 1 (line 474); a run's
exit code is decided later (`none`). -/
def action_exit : MainAction → Option Nat
  | .listScenariosAndReturn => some 0
  | .argumentError => some 2
  | .unknownScenarioError _ => some 1
  | .runScenario _ _ => none

/-- The steps of `run_scenario` from entry to the first `client.connect`
(mqtt_credential_test.py, lines 328-365), in source order: the global
`response_received` flag is assigned False (line 331), the scenario is
instantiated (line 334), the client is created (line 344), authentication is
configured (lines 347-350), callbacks are registered (lines 353-358), and
the transport is connected (line 365). -/
inductive RunStep where
  | resetResponseReceived
  | instantiateScenario
  | createClient
  | configureAuth
  | registerCallbacks
  | connect
deriving DecidableEq

/-- The pre-connect instruction sequence of `run_scenario`. -/
def run_scenario_steps : List RunStep :=
  [.resetResponseReceived, .instantiateScenario, .createClient,
   .configureAuth, .registerCallbacks, .connect]

/-- Value of the module-level `response_received` flag after executing a
step list from initial flag value `b`: only `resetResponseReceived` writes
the flag, and it writes False. -/
def flag_after (b : Bool) : List RunStep → Bool
  | [] => b
  | .resetResponseReceived :: rest => flag_after false rest
  | _ :: rest => flag_after b rest

/-- Whether a step is the connect call. -/
def is_connect : RunStep → Bool
  | .connect => true
  | _ => false

/-! ### Claims C3 through C6, C9 and C10 -/

/-- Claim C3 counterexample: in mqtt_credential_test.py the process exit
status is 0 on timeout, on a validation failure (response with status 400),
and on user interruption — the claim requires non-zero for all three. -/
theorem C3_counterexample :
    run_scenario_exit .timeout = 0 ∧
    run_scenario_exit (.response (some "400")) = 0 ∧
    run_scenario_exit .interrupted = 0 :=
  ⟨rfl, rfl, rfl⟩

/-- Claim C3 (amended): mqtt_issue_cert.py exits 0 exactly on a validated
202 response and 1 on every other event, while mqtt_credential_test.py's
`run_scenario` exits 1 only on connection failure or an unexpected
exception and exits 0 on every other event, timeout, validation failure and
interruption included. -/
theorem C3_exit_codes_amended (e : RunEvent) :
    (issue_cert_main_exit e = 0 ↔ e = .response (some "202")) ∧
    run_scenario_exit e =
      (if e = .connectFailure ∨ e = .exception then 1 else 0) := by
  cases e with
  | response code =>
    refine ⟨?_, by simp [run_scenario_exit]⟩
    by_cases hc : code = some "202" <;> simp [issue_cert_main_exit, hc]
  | connectFailure => exact ⟨by simp [issue_cert_main_exit], by simp [run_scenario_exit]⟩
  | timeout => exact ⟨by simp [issue_cert_main_exit], by simp [run_scenario_exit]⟩
  | interrupted => exact ⟨by simp [issue_cert_main_exit], by simp [run_scenario_exit]⟩
  | exception => exact ⟨by simp [issue_cert_main_exit], by simp [run_scenario_exit]⟩

/-- Claim C4: with wall-clock time an explicit argument, `generate_sas_token`
is a function of `(uri, key, policy_name, expiry, now)` — two invocations on
the same tuple give the identical token — and for a decodable key the token
embeds `se=` equal to `now + expiry`, for each expiry value. -/
theorem C4_sas_token_deterministic (uri key : String) (policy_name : Option String)
    (e1 e2 now : Nat) (k : List Nat) (h : b64decode key = some k) :
    generate_sas_token uri key policy_name e1 now =
      generate_sas_token uri key policy_name e1 now ∧
    (∃ sig rest, generate_sas_token uri key policy_name e1 now =
        Except.ok ("SharedAccessSignature sr=" ++ uri ++ "&sig=" ++ sig ++
          "&se=" ++ toString (now + e1) ++ rest)) ∧
    (∃ sig rest, generate_sas_token uri key policy_name e2 now =
        Except.ok ("SharedAccessSignature sr=" ++ uri ++ "&sig=" ++ sig ++
          "&se=" ++ toString (now + e2) ++ rest)) := by
  have gen : ∀ e : Nat, ∃ sig rest, generate_sas_token uri key policy_name e now =
      Except.ok ("SharedAccessSignature sr=" ++ uri ++ "&sig=" ++ sig ++
        "&se=" ++ toString (now + e) ++ rest) := by
    intro e
    unfold generate_sas_token
    rw [h]
    cases policy_name with
    | none =>
      exact ⟨quote_plus (b64encode (hmacSha256 k
        (strBytes (uri ++ "\n" ++ toString (now + e))))), "", by simp⟩
    | some p =>
      by_cases hp : p = ""
      · exact ⟨quote_plus (b64encode (hmacSha256 k
          (strBytes (uri ++ "\n" ++ toString (now + e))))), "", by simp [hp]⟩
      · exact ⟨quote_plus (b64encode (hmacSha256 k
          (strBytes (uri ++ "\n" ++ toString (now + e))))), "&skn=" ++ p,
          by simp [hp, String.append_assoc]⟩
  exact ⟨rfl, gen e1, gen e2⟩

/-- Witness for C4 at a concrete decodable key and two expiries. -/
theorem C4_witness :
    b64decode "AAAA" = some [0, 0, 0] ∧
    (∃ sig rest, generate_sas_token "myhub.azure-devices.net" "AAAA"
        (some "iothubowner") 3600 1700000000 =
      Except.ok ("SharedAccessSignature sr=" ++ "myhub.azure-devices.net" ++
        "&sig=" ++ sig ++ "&se=" ++ toString (1700000000 + 3600 : Nat) ++ rest)) ∧
    (∃ sig rest, generate_sas_token "myhub.azure-devices.net" "AAAA"
        (some "iothubowner") 7200 1700000000 =
      Except.ok ("SharedAccessSignature sr=" ++ "myhub.azure-devices.net" ++
        "&sig=" ++ sig ++ "&se=" ++ toString (1700000000 + 7200 : Nat) ++ rest)) :=
  ⟨rfl,
   (C4_sas_token_deterministic "myhub.azure-devices.net" "AAAA" (some "iothubowner")
     3600 7200 1700000000 [0, 0, 0] rfl).2.1,
   (C4_sas_token_deterministic "myhub.azure-devices.net" "AAAA" (some "iothubowner")
     3600 7200 1700000000 [0, 0, 0] rfl).2.2⟩

/-- Claim C5: for a base64-decodable key, `generate_sas_token` returns
exactly the string `SharedAccessSignature sr=<uri>&sig=<sig>&se=<ttl>`,
where `<ttl>` is `now + expiry`, `<sig>` is the URL-encoded base64 encoding
of the HMAC-SHA256 of the UTF-8 bytes of `"<uri>\n<ttl>"` under the decoded
key, and `&skn=<policy>` is appended exactly when the policy name is
non-empty. -/
theorem C5_sas_token_structure (uri key : String) (policy_name : Option String)
    (expiry now : Nat) (k : List Nat) (h : b64decode key = some k) :
    generate_sas_token uri key policy_name expiry now =
      Except.ok
        (let sig := quote_plus (b64encode (hmacSha256 k
           (strBytes (uri ++ "\n" ++ toString (now + expiry)))))
         let base := "SharedAccessSignature sr=" ++ uri ++ "&sig=" ++ sig ++
           "&se=" ++ toString (now + expiry)
         match policy_name with
         | some p => if p ≠ "" then base ++ "&skn=" ++ p else base
         | none => base) := by
  unfold generate_sas_token
  rw [h]
  cases policy_name with
  | none => rfl
  | some p => by_cases hp : p = "" <;> simp [hp]

/-- Witness for C5 at a concrete decodable key. -/
theorem C5_witness :
    b64decode "AAAA" = some [0, 0, 0] ∧
    generate_sas_token "myhub.azure-devices.net" "AAAA" (some "iothubowner")
        3600 1700000000 =
      Except.ok
        (let sig := quote_plus (b64encode (hmacSha256 [0, 0, 0]
           (strBytes ("myhub.azure-devices.net" ++ "\n" ++
             toString (1700000000 + 3600 : Nat)))))
         let base := "SharedAccessSignature sr=" ++ "myhub.azure-devices.net" ++
           "&sig=" ++ sig ++ "&se=" ++ toString (1700000000 + 3600 : Nat)
         match (some "iothubowner" : Option String) with
         | some p => if p ≠ "" then base ++ "&skn=" ++ p else base
         | none => base) :=
  ⟨rfl, C5_sas_token_structure "myhub.azure-devices.net" "AAAA"
    (some "iothubowner") 3600 1700000000 [0, 0, 0] rfl⟩

/-- Claim C6 counterexample: the key string consisting of the single
character `!` is not valid base64, yet CPython's lenient decoder discards
characters outside the alphabet, decodes it to the empty byte string, and
`generate_sas_token` silently returns a token whose signature is computed
from that empty key — it does not fail fast. -/
theorem C6_counterexample :
    b64decode "!" = some [] ∧
    generate_sas_token "myhub.azure-devices.net" "!" none 3600 1700000000 =
      Except.ok ("SharedAccessSignature sr=" ++ "myhub.azure-devices.net" ++
        "&sig=" ++ quote_plus (b64encode (hmacSha256 []
          (strBytes ("myhub.azure-devices.net" ++ "\n" ++
            toString (1700000000 + 3600 : Nat))))) ++
        "&se=" ++ toString (1700000000 + 3600 : Nat)) :=
  ⟨rfl, rfl⟩

/-- Claim C6 (amended): when the base64 decoding of the key raises — the
data characters remaining after the decoder discards characters outside the
base64 alphabet do not form complete quads, or the key is not ASCII —
`generate_sas_token` fails fast with a reported error and returns no token;
but because non-alphabet characters are discarded rather than rejected, a
key that is not valid base64 can still decode silently (for example `!`
decodes to the empty byte string) and a token computed from that empty key
is then returned. -/
theorem C6_decode_error_fails_fast (uri key : String) (policy_name : Option String)
    (expiry now : Nat) (h : b64decode key = none) :
    generate_sas_token uri key policy_name expiry now =
      Except.error "✗ Error decoding key" := by
  unfold generate_sas_token
  rw [h]

/-- Witness for the amended C6 at the concrete key `abc` (three data
characters, an incomplete quad, so CPython raises Incorrect padding). -/
theorem C6_witness :
    b64decode "abc" = none ∧
    generate_sas_token "myhub.azure-devices.net" "abc" none 3600 1700000000 =
      Except.error "✗ Error decoding key" :=
  ⟨rfl, C6_decode_error_fails_fast "myhub.azure-devices.net" "abc" none
    3600 1700000000 rfl⟩

/-- Claim C9: on a normal invocation (no `--list-scenarios`, an auth method
chosen) with a scenario name outside the registry, `main` takes the
unknown-scenario branch, exits with status 1, and never reaches a connect
call. -/
theorem C9_unknown_scenario (a : Args) (hlist : a.list_scenarios = false)
    (hauth : a.cert = true ∨ a.sas = true)
    (hname : SCENARIOS.contains a.scenario = false) :
    main_dispatch a = .unknownScenarioError a.scenario ∧
    action_exit (main_dispatch a) = some 1 ∧
    action_connects (main_dispatch a) = false := by
  have hd : main_dispatch a = .unknownScenarioError a.scenario := by
    unfold main_dispatch
    simp at hname
    rcases hauth with hc | hs
    · simp [hlist, hc, hname]
    · simp [hlist, hs, hname]
  exact ⟨hd, by rw [hd]; rfl, by rw [hd]; rfl⟩

/-- Witness for C9 at a concrete argument vector with an unregistered
scenario name. -/
theorem C9_witness :
    (Args.mk "bogus_scenario" false true false).list_scenarios = false ∧
    ((Args.mk "bogus_scenario" false true false).cert = true ∨
      (Args.mk "bogus_scenario" false true false).sas = true) ∧
    SCENARIOS.contains (Args.mk "bogus_scenario" false true false).scenario = false ∧
    main_dispatch (Args.mk "bogus_scenario" false true false) =
      .unknownScenarioError "bogus_scenario" ∧
    action_exit (main_dispatch (Args.mk "bogus_scenario" false true false)) = some 1 ∧
    action_connects (main_dispatch (Args.mk "bogus_scenario" false true false)) = false := by
  refine ⟨rfl, Or.inl rfl, by decide, ?_⟩
  exact C9_unknown_scenario (Args.mk "bogus_scenario" false true false)
    rfl (Or.inl rfl) (by decide)

/-- Claim C10: `run_scenario` assigns False to the module-level
`response_received` flag before the connect call — whatever value a previous
run left in the flag, its value at the connect step is False. -/
theorem C10_flag_reset_before_connect (b : Bool) :
    RunStep.connect ∈ run_scenario_steps ∧
    flag_after b (run_scenario_steps.takeWhile (fun s => !(is_connect s))) = false := by
  cases b <;> exact ⟨by decide, by decide⟩

/-- Witness for C10 (the statement quantifies only over the initial flag
value; instantiated at True, the value a completed previous run leaves). -/
theorem C10_witness :
    RunStep.connect ∈ run_scenario_steps ∧
    flag_after true (run_scenario_steps.takeWhile (fun s => !(is_connect s))) = false :=
  C10_flag_reset_before_connect true

end MqttCredTest
